import Mathlib

/-!
Shallow embedding of `app/main.py` of the whisperx-docker repository: the
`/transcribe/` request handler (`transcribe`) and the `/transcribe/batch/`
handler (`transcribe_batch`).

The three external model invocations (whisperx transcription, alignment,
diarization) are opaque library calls; we model each call's outcome as a
component of an `Env` record (an `Except` value: either the dictionary the
library returned, or the message of the exception it raised).  The handler
itself — validation, temp-file lifecycle, stage orchestration, exception
translation to HTTP errors — is embedded faithfully from the source, branch
by branch.

Python-dictionary access conventions of the source are embedded as follows:
`d.get(k, v)` on a possibly-absent key is `Option.getD`; `d[k]` on an absent
key raises `KeyError`; a `str` is falsy iff it is `""`; `str(e)` of a
fastapi/starlette `HTTPException` is `"{status_code}: {detail}"` (starlette
defines `__str__` exactly so).
-/

namespace WhisperXApi

/-- One entry of a `segments` list: a JSON object. The handler only ever reads
the `text` key (`seg.get("text", "")`) and, conceptually, diarization adds a
`speaker` key; all other keys (timestamps, scores) are irrelevant to the
handler's control flow and are not modelled. -/
structure Seg where
  text : Option String := none
  speaker : Option String := none
  deriving Repr, DecidableEq

/-- One entry of a `word_segments` list (opaque to the handler: it is only
ever passed through whole). -/
structure Word where
  word : String := ""
  deriving Repr, DecidableEq

/-- The dictionary returned by `model.transcribe` (line 130). The handler
reads `language` (`result.get("language", "unknown")`), `text`
(`result.get("text", "")`), and `segments` (via `.get` with default and via
raw indexing `result["segments"]`). Each is `Option` because a Python dict
key may be absent. -/
structure TransResult where
  language : Option String := none
  text : Option String := none
  segments : Option (List Seg) := none
  deriving Repr, DecidableEq

/-- The dictionary returned by `whisperx.align` (line 159): the handler reads
`word_segments` and `segments`, both via `.get` with a default. -/
structure AlignResult where
  segments : Option (List Seg) := none
  word_segments : Option (List Word) := none
  deriving Repr, DecidableEq

/-- The dictionary returned by `whisperx.assign_word_speakers` (line 193):
the handler reads only `segments`, via `.get` with a default. -/
structure DiarResult where
  segments : Option (List Seg) := none
  deriving Repr, DecidableEq

/-- The outcomes of all external effects one `/transcribe/` request can
perform.  Each field corresponds to one (group of) library/OS call(s) in the
source, in program order; `Except.error msg` means that call raised an
exception whose `str` is `msg`.

* `saveErr`: the temp-file write (lines 122–123) together with
  `whisperx.load_audio` (line 129) — `some msg` means one of them raised
  after the temp file came into existence, `none` means both succeeded.
* `transcription`: `model.transcribe` (line 130).
* `alignment`: `whisperx.load_align_model` + `whisperx.align`
  (lines 155–166), as one outcome, since both raise into the same handler.
* `diarRunErr`: `whisperx.DiarizationPipeline` construction +
  `diarize_model(audio)` (lines 185–190), which run before the
  `result_aligned if align else result` argument is evaluated.
* `assign`: `whisperx.assign_word_speakers` (line 193).
* `removeOk`: whether `os.remove` in the `finally` block (line 225)
  succeeds. -/
structure Env where
  saveErr : Option String := none
  transcription : Except String TransResult := .error ""
  alignment : Except String AlignResult := .error ""
  diarRunErr : Option String := none
  assign : Except String DiarResult := .error ""
  removeOk : Bool := true

/-- The parameters of one `/transcribe/` request: the uploaded file's
filename (`none` when the multipart part carries no filename) and the three
query parameters with their FastAPI defaults (line 90–94). -/
structure Request where
  filename : Option String := none
  align : Bool := true
  diarize : Bool := false
  language : Option String := none
  deriving Repr, DecidableEq

/-- Python falsiness of an optional string: `not x` is true iff `x` is
`None` or `""` (used at lines 107 and 111). -/
def falsyStr : Option String → Bool
  | none => true
  | some s => s == ""

/-- The `response_data` dictionary (lines 145–149, 168–169, 179, 198–199).
`word_segments` / `diarization` are `none` exactly when the source never
assigned those keys. -/
structure ResponseData where
  text : String
  segments : List Seg
  language : String
  word_segments : Option (List Word) := none
  diarization : Option (List Seg) := none
  deriving Repr, DecidableEq

/-- What one `/transcribe/` call yields to its caller: a success JSON body or
an `HTTPException` with status code and detail string. -/
inductive Outcome where
  | success (resp : ResponseData)
  | httpError (status : Nat) (detail : String)
  deriving Repr, DecidableEq

/-- The HTTP status the caller observes: `none` marks a 200 success body. -/
def Outcome.status : Outcome → Option Nat
  | .success _ => none
  | .httpError s _ => some s

/-- Whether the outcome is a success response. -/
def Outcome.isSuccess : Outcome → Bool
  | .success _ => true
  | .httpError _ _ => false

/-- `str(e)` of a starlette `HTTPException`: `"{status_code}: {detail}"`. -/
def httpExcStr (status : Nat) (detail : String) : String :=
  toString status ++ ": " ++ detail

/-- Line 121: `audio_path = f"/tmp/{file.filename}"`. -/
def tmpPath (filename : String) : String :=
  "/tmp/" ++ filename

/-- Python `str.strip()` on a character list: drop leading and trailing
whitespace. -/
def stripChars (cs : List Char) : List Char :=
  ((cs.dropWhile Char.isWhitespace).reverse.dropWhile Char.isWhitespace).reverse

/-- Python `str.strip()` (line 142). -/
def pyStrip (s : String) : String :=
  String.mk (stripChars s.data)

/-- Lines 139–142: `full_text = result.get("text", "")`, then if that is
falsy and `"segments" in result`, join the stripped segment texts with a
single space. -/
def fullTextOf (result : TransResult) : String :=
  let ft := result.text.getD ""
  if ft = "" ∧ result.segments.isSome then
    String.intercalate " " ((result.segments.getD []).map (fun seg => pyStrip (seg.text.getD "")))
  else ft

/-- The message of the `UnboundLocalError` Python raises at line 195 when
`align` is true but `result_aligned` was never assigned (the alignment `try`
block raised before line 159 completed).  CPython renders it as
`cannot access local variable 'result_aligned' where it is not associated
with a value` (the variable name in quotes); the exact wording is
version-dependent and nothing below depends on it. -/
def unboundLocalMsg : String :=
  "cannot access local variable result_aligned where it is not associated with a value"

/-- Lines 207–212 composed with the outer handler (lines 217–219): an
exception with message `msg` inside the diarization `try` block is re-raised
as `HTTPException(500, "Diarization failed: " + msg)`, which the outer
`except Exception` catches and wraps once more into
`HTTPException(500, "Processing failed: " + str(inner))`. -/
def diarFailOutcome (msg : String) : Outcome :=
  .httpError 500 ("Processing failed: " ++ httpExcStr 500 ("Diarization failed: " ++ msg))

/-- Lines 152–179, the alignment stage, acting on the current
`response_data`.  Returns the updated `response_data` and the
`result_aligned` binding (`none` = the Python local was never assigned).
The stage succeeds only if `whisperx.load_align_model` and `whisperx.align`
succeed AND `result["segments"]` exists (line 160 raises `KeyError`
otherwise); any of those exceptions is caught at line 177 and leaves
`word_segments := []` (line 179) with `segments` untouched. -/
def alignStage (req : Request) (env : Env) (result : TransResult)
    (resp : ResponseData) : ResponseData × Option AlignResult :=
  if req.align then
    match result.segments, env.alignment with
    | some segs, .ok ra =>
        ({ resp with
             word_segments := some (ra.word_segments.getD []),
             segments := ra.segments.getD segs },
         some ra)
    | some _, .error _ => ({ resp with word_segments := some [] }, none)
    | none, _ => ({ resp with word_segments := some [] }, none)
  else (resp, none)

/-- Lines 181–212, the diarization stage.  `resultAligned` is the Python
local `result_aligned` (`none` = unbound).  Order of failure points follows
the source: pipeline construction / `diarize_model(audio)` first
(`env.diarRunErr`), then evaluation of `result_aligned if align else result`
(`UnboundLocalError` when `align` and the local is unbound), then
`assign_word_speakers` (`env.assign`).  Any exception becomes the nested
500 of `diarFailOutcome`.  On success, `diarization` and `segments` are
updated from the result (lines 198–199). -/
def diarizeStage (req : Request) (env : Env) (resp : ResponseData)
    (resultAligned : Option AlignResult) : Outcome :=
  if req.diarize then
    match env.diarRunErr with
    | some msg => diarFailOutcome msg
    | none =>
        if req.align && resultAligned.isNone then
          diarFailOutcome unboundLocalMsg
        else
          match env.assign with
          | .error msg => diarFailOutcome msg
          | .ok dr =>
              .success { resp with
                           diarization := some (dr.segments.getD []),
                           segments := dr.segments.getD resp.segments }
  else .success resp

/-- Lines 145–149: the `response_data` dictionary as first assembled, before
the optional stages touch it. -/
def respBase (result : TransResult) : ResponseData :=
  { text := fullTextOf result,
    segments := result.segments.getD [],
    language := result.language.getD "unknown" }

/-- The body of the `try` block (lines 119–219 without the `finally`):
save + decode, transcription, the response skeleton of lines 145–149, then
the alignment and diarization stages.  An exception from save/decode or
transcription reaches the outer `except Exception` (lines 217–219) and
becomes `HTTPException(500, "Processing failed: " + str(e))`. -/
def processOutcome (req : Request) (env : Env) : Outcome :=
  match env.saveErr with
  | some msg => .httpError 500 ("Processing failed: " ++ msg)
  | none =>
      match env.transcription with
      | .error msg => .httpError 500 ("Processing failed: " ++ msg)
      | .ok result =>
          diarizeStage req env (alignStage req env result (respBase result)).1
            (alignStage req env result (respBase result)).2

/-- The observable trace of one `/transcribe/` call: the outcome plus the
resource events the spec talks about. -/
structure RunResult where
  outcome : Outcome
  /-- the temp file of line 121–123 came into existence -/
  tempCreated : Bool
  /-- the path it was written to, when created -/
  tempPath : Option String
  /-- `model.transcribe` (line 130) was invoked -/
  transcribeInvoked : Bool
  /-- the `finally` block reached `os.remove` (lines 223–225) -/
  removeAttempted : Bool
  /-- the temp file still exists after the request completes -/
  tempFileExistsAfter : Bool
  deriving Repr, DecidableEq

/-- Lines 90–228: the whole `/transcribe/` handler.  The two validations
(lines 107, 111) raise 400 before `audio_path` is set and before the
`try`/`finally`, so on those paths no temp file exists and no model runs.
Otherwise the temp file is created, the `try` body runs
(`processOutcome`), and the `finally` block always reaches `os.remove`
(the file exists: nothing deleted it earlier); a failing `os.remove`
(`¬ env.removeOk`) is only printed, leaving the file behind. -/
def runTranscribe (hfToken : Option String) (req : Request) (env : Env) : RunResult :=
  if falsyStr req.filename then
    { outcome := .httpError 400 "No file provided",
      tempCreated := false, tempPath := none, transcribeInvoked := false,
      removeAttempted := false, tempFileExistsAfter := false }
  else if req.diarize && falsyStr hfToken then
    { outcome := .httpError 400 "Diarization requires HF_TOKEN environment variable to be set",
      tempCreated := false, tempPath := none, transcribeInvoked := false,
      removeAttempted := false, tempFileExistsAfter := false }
  else
    { outcome := processOutcome req env,
      tempCreated := true,
      tempPath := some (tmpPath (req.filename.getD "")),
      transcribeInvoked := env.saveErr.isNone,
      removeAttempted := true,
      tempFileExistsAfter := !env.removeOk }

/-- One entry of the list returned by `/transcribe/batch/`
(lines 246–256). -/
structure BatchEntry where
  filename : Option String
  status : String
  result : Option ResponseData := none
  error : Option String := none
  deriving Repr, DecidableEq

/-- Lines 243–256: one iteration of the batch loop.  `transcribe` is awaited;
a normal return becomes a `success` entry carrying the response, an
`HTTPException` is caught by `except Exception` and becomes an `error`
entry carrying `str(e)`. -/
def runBatchEntry (hfToken : Option String) (align diarize : Bool)
    (language : Option String) (fileEnv : Option String × Env) : BatchEntry :=
  let r := runTranscribe hfToken
    { filename := fileEnv.1, align := align, diarize := diarize, language := language }
    fileEnv.2
  match r.outcome with
  | .success resp =>
      { filename := fileEnv.1, status := "success", result := some resp }
  | .httpError s d =>
      { filename := fileEnv.1, status := "error", error := some (httpExcStr s d) }

/-- Lines 231–258: the `/transcribe/batch/` handler.  Each uploaded file is
processed independently (one `Env` of external outcomes per file); the
handler body raises nothing itself, so the envelope is always a 200 whose
body is `{"results": ...}` with one entry per file, in upload order. -/
def runTranscribeBatch (hfToken : Option String) (align diarize : Bool)
    (language : Option String) (files : List (Option String × Env)) : List BatchEntry :=
  files.map (runBatchEntry hfToken align diarize language)

/-- The alignment stage's `try` block fails: one of `load_align_model` /
`align` raised, or `result["segments"]` raised `KeyError` at line 160. -/
def alignStageFails (env : Env) (result : TransResult) : Prop :=
  (∃ msg, env.alignment = .error msg) ∨ result.segments = none

/-- Split a character list into the strings between `/` separators. -/
def splitSlashAux : List Char → List Char → List String
  | [], acc => [String.mk acc.reverse]
  | c :: cs, acc =>
      if c = '/' then String.mk acc.reverse :: splitSlashAux cs []
      else splitSlashAux cs (c :: acc)

/-- POSIX resolution of an absolute path containing `.`/`..` components and
no symlinks: split on `/`, drop empty and `.` components, let `..` pop the
last surviving component.  Models what the OS does with the string passed
to `open` at line 122. -/
def normalizeAbs (p : String) : String :=
  let comps := (splitSlashAux p.data []).filter (fun c => c ≠ "" ∧ c ≠ ".")
  let final := comps.foldl (fun acc c => if c = ".." then acc.dropLast else acc ++ [c]) []
  "/" ++ String.intercalate "/" final

/-- The second character list starts with the first. -/
def charsStart : List Char → List Char → Bool
  | [], _ => true
  | _ :: _, [] => false
  | c :: cs, d :: ds => c = d && charsStart cs ds

/-- `b` starts with `a` (character-wise). -/
def strStarts (a b : String) : Bool :=
  charsStart a.data b.data

/-! Concrete sample data, used to evaluate the theorems below on explicit
inputs. -/

/-- A sample transcription segment whose text has surrounding whitespace. -/
def segHello : Seg := { text := some " hello " }

/-- A second sample transcription segment. -/
def segWorld : Seg := { text := some "world" }

/-- A sample diarized segment (speaker label assigned). -/
def segSpk : Seg := { text := some "hello", speaker := some "SPEAKER_00" }

/-- A sample word-level alignment entry. -/
def wordHello : Word := { word := "hello" }

/-- A sample successful transcription result. -/
def trSample : TransResult := { language := some "en", segments := some [segHello, segWorld] }

/-- A sample transcription result that carries a combined `text` key. -/
def trDirect : TransResult :=
  { language := some "en", text := some "direct text", segments := some [segHello] }

/-- A sample successful alignment result. -/
def raSample : AlignResult := { segments := some [segHello], word_segments := some [wordHello] }

/-- A sample successful speaker-assignment result. -/
def drSample : DiarResult := { segments := some [segSpk] }

/-- An environment in which every stage succeeds. -/
def envFull : Env :=
  { transcription := .ok trSample, alignment := .ok raSample,
    diarRunErr := none, assign := .ok drSample }

/-- An environment in which the alignment stage raises. -/
def envAlignFail : Env :=
  { transcription := .ok trSample, alignment := .error "boom",
    diarRunErr := none, assign := .ok drSample }

/-- An environment in which `assign_word_speakers` raises. -/
def envDiarFail : Env :=
  { transcription := .ok trSample, alignment := .ok raSample,
    diarRunErr := none, assign := .error "cuda out of memory" }

/-- An environment in which the alignment stage raises AND the diarization
pipeline construction/run itself raises (before the `result_aligned`
argument is ever evaluated). -/
def envPipeFail : Env :=
  { transcription := .ok trSample, alignment := .error "boom",
    diarRunErr := some "pipeline down", assign := .error "unused" }

/-- An environment whose transcription result carries a combined text. -/
def envDirect : Env :=
  { transcription := .ok trDirect, alignment := .error "boom" }

/-- The response `envFull` yields for an align+diarize request. -/
def respDiarized : ResponseData :=
  { text := "hello world", segments := [segSpk], language := "en",
    word_segments := some [wordHello], diarization := some [segSpk] }

/-- The response `envFull` yields for an align-only request. -/
def respAligned : ResponseData :=
  { text := "hello world", segments := [segHello], language := "en",
    word_segments := some [wordHello] }

/-- The response `envAlignFail` yields for an align-only request. -/
def respDegraded : ResponseData :=
  { text := "hello world", segments := [segHello, segWorld], language := "en",
    word_segments := some [] }

/-- The response `envDirect` yields for an align-only request. -/
def respDirect : ResponseData :=
  { text := "direct text", segments := [segHello], language := "en",
    word_segments := some [] }

/-! Helper lemmas about the stage functions. -/

/-- The `finally` block's `os.remove` outcome is invisible to the `try`
body: `processOutcome` does not depend on `removeOk`. -/
theorem processOutcome_removeOk (req : Request) (env : Env) (b : Bool) :
    processOutcome req { env with removeOk := b } = processOutcome req env := rfl

/-- Past the two validations, the handler's outcome is the `try` body's. -/
theorem runTranscribe_outcome (hfToken : Option String) (req : Request) (env : Env)
    (h1 : falsyStr req.filename = false) (h2 : (req.diarize && falsyStr hfToken) = false) :
    (runTranscribe hfToken req env).outcome = processOutcome req env := by
  simp [runTranscribe, h1, h2]

/-- When alignment is not requested the stage is the identity and
`result_aligned` stays unbound. -/
theorem alignStage_skip (req : Request) (env : Env) (result : TransResult)
    (resp : ResponseData) (ha : req.align = false) :
    alignStage req env result resp = (resp, none) := by
  simp [alignStage, ha]

/-- The successful alignment stage. -/
theorem alignStage_ok (req : Request) (env : Env) (result : TransResult)
    (resp : ResponseData) (segs : List Seg) (ra : AlignResult) (ha : req.align = true)
    (hseg : result.segments = some segs) (hal : env.alignment = .ok ra) :
    alignStage req env result resp =
      ({ resp with word_segments := some (ra.word_segments.getD []),
                   segments := ra.segments.getD segs }, some ra) := by
  simp [alignStage, ha, hseg, hal]

/-- The failing alignment stage: `word_segments := []`, `segments`
untouched, the local `result_aligned` never assigned. -/
theorem alignStage_fail (req : Request) (env : Env) (result : TransResult)
    (resp : ResponseData) (ha : req.align = true) (hfail : alignStageFails env result) :
    alignStage req env result resp = ({ resp with word_segments := some [] }, none) := by
  unfold alignStage
  rcases hfail with ⟨msg, hm⟩ | hnone
  · cases hseg : result.segments <;> simp [ha, hm, hseg]
  · simp [ha, hnone]

/-- When diarization is not requested the stage returns the response as is. -/
theorem diarizeStage_skip (req : Request) (env : Env) (resp : ResponseData)
    (ra : Option AlignResult) (hd : req.diarize = false) :
    diarizeStage req env resp ra = .success resp := by
  simp [diarizeStage, hd]

/-- Diarization pipeline construction / execution raising is fatal. -/
theorem diarizeStage_runErr (req : Request) (env : Env) (resp : ResponseData)
    (ra : Option AlignResult) (msg : String) (hd : req.diarize = true)
    (hr : env.diarRunErr = some msg) :
    diarizeStage req env resp ra = diarFailOutcome msg := by
  simp [diarizeStage, hd, hr]

/-- With `align` set but `result_aligned` never assigned, the diarization
stage trips over the unbound local. -/
theorem diarizeStage_unbound (req : Request) (env : Env) (resp : ResponseData)
    (hd : req.diarize = true) (ha : req.align = true) (hr : env.diarRunErr = none) :
    diarizeStage req env resp none = diarFailOutcome unboundLocalMsg := by
  simp [diarizeStage, hd, ha, hr]

/-- `assign_word_speakers` raising is fatal. -/
theorem diarizeStage_assignErr (req : Request) (env : Env) (resp : ResponseData)
    (ra : Option AlignResult) (msg : String) (hd : req.diarize = true)
    (hr : env.diarRunErr = none) (hok : (req.align && ra.isNone) = false)
    (he : env.assign = .error msg) :
    diarizeStage req env resp ra = diarFailOutcome msg := by
  simp [diarizeStage, hd, hr, hok, he]

/-- The successful diarization stage. -/
theorem diarizeStage_ok (req : Request) (env : Env) (resp : ResponseData)
    (ra : Option AlignResult) (dr : DiarResult) (hd : req.diarize = true)
    (hr : env.diarRunErr = none) (hok : (req.align && ra.isNone) = false)
    (he : env.assign = .ok dr) :
    diarizeStage req env resp ra =
      .success { resp with diarization := some (dr.segments.getD []),
                           segments := dr.segments.getD resp.segments } := by
  simp [diarizeStage, hd, hr, hok, he]

/-- A success outcome forces: both validations passed and the temp-file
write / audio decode did not raise. -/
theorem runTranscribe_success_cases (hfToken : Option String) (req : Request)
    (env : Env) (resp : ResponseData)
    (ho : (runTranscribe hfToken req env).outcome = .success resp) :
    falsyStr req.filename = false ∧ (req.diarize && falsyStr hfToken) = false ∧
      env.saveErr = none := by
  by_cases h1 : falsyStr req.filename = true
  · simp [runTranscribe, h1] at ho
  · by_cases h2 : (req.diarize && falsyStr hfToken) = true
    · simp [runTranscribe, h1, h2] at ho
    · cases hs : env.saveErr with
      | some msg =>
          rw [runTranscribe_outcome hfToken req env (by simpa using h1) (by simpa using h2)] at ho
          simp [processOutcome, hs] at ho
      | none =>
          exact ⟨by simpa using h1, by simpa using h2, rfl⟩

/-- A success outcome is exactly the output of the diarization stage applied
to the output of the alignment stage applied to the base response. -/
theorem runTranscribe_success_pipeline (hfToken : Option String) (req : Request)
    (env : Env) (result : TransResult) (resp : ResponseData)
    (ht : env.transcription = .ok result)
    (ho : (runTranscribe hfToken req env).outcome = .success resp) :
    diarizeStage req env (alignStage req env result (respBase result)).1
      (alignStage req env result (respBase result)).2 = .success resp := by
  obtain ⟨h1, h2, hs⟩ := runTranscribe_success_cases hfToken req env resp ho
  rw [runTranscribe_outcome hfToken req env h1 h2] at ho
  rw [processOutcome, hs, ht] at ho
  exact ho

/-- Inversion for a successful diarization stage. -/
theorem diarizeStage_success_inv (req : Request) (env : Env) (resp : ResponseData)
    (ra : Option AlignResult) (resp' : ResponseData)
    (h : diarizeStage req env resp ra = .success resp') :
    (req.diarize = false ∧ resp' = resp) ∨
    (req.diarize = true ∧ ∃ dr, env.assign = .ok dr ∧
       resp' = { resp with diarization := some (dr.segments.getD []),
                           segments := dr.segments.getD resp.segments }) := by
  unfold diarizeStage at h
  cases hd : req.diarize with
  | false =>
      rw [hd] at h
      simp only [Bool.false_eq_true, if_false] at h
      exact Or.inl ⟨rfl, (Outcome.success.injEq _ _ ▸ h).symm⟩
  | true =>
      rw [hd] at h
      simp only [if_true] at h
      refine Or.inr ⟨rfl, ?_⟩
      cases hr : env.diarRunErr with
      | some msg => rw [hr] at h; simp [diarFailOutcome] at h
      | none =>
          rw [hr] at h
          dsimp only at h
          by_cases hok : (req.align && ra.isNone) = true
          · rw [if_pos hok] at h; simp [diarFailOutcome] at h
          · rw [if_neg hok] at h
            cases he : env.assign with
            | error msg => rw [he] at h; simp [diarFailOutcome] at h
            | ok dr =>
                rw [he] at h
                dsimp only at h
                exact ⟨dr, rfl, by simpa using h.symm⟩

/-- The alignment stage never touches the `text` or `language` fields. -/
theorem alignStage_text (req : Request) (env : Env) (result : TransResult)
    (resp : ResponseData) :
    ((alignStage req env result resp).1).text = resp.text ∧
      ((alignStage req env result resp).1).language = resp.language := by
  unfold alignStage
  by_cases ha : req.align = true
  · rw [if_pos ha]
    cases hseg : result.segments <;> cases hal : env.alignment <;> simp
  · rw [if_neg ha]
    exact ⟨rfl, rfl⟩

/-- When the handler got past both validations, the temp path is recorded as
`"/tmp/" ++ filename`. -/
theorem runTranscribe_tempPath (hf : Option String) (r : Request) (e : Env)
    (hc : (runTranscribe hf r e).tempCreated = true) :
    (runTranscribe hf r e).tempPath = some (tmpPath (r.filename.getD "")) := by
  unfold runTranscribe at hc ⊢
  by_cases h1 : falsyStr r.filename = true
  · rw [if_pos h1] at hc; exact absurd hc (by simp)
  · rw [if_neg h1] at hc ⊢
    by_cases h2 : (r.diarize && falsyStr hf) = true
    · rw [if_pos h2] at hc; exact absurd hc (by simp)
    · rw [if_neg h2]

/-! The claims. -/

/-- C1 (counterexample): the claim quantifies over *every* request in which
alignment is requested and the alignment stage raises — but when diarization
is also requested (with a credential configured), the diarization stage
trips over the never-assigned `result_aligned` local and the handler returns
a 500 instead of the claimed success response. -/
theorem claim1_counterexample :
    (runTranscribe (some "hf-token")
        { filename := some "a.wav", align := true, diarize := true }
        envAlignFail).outcome =
      .httpError 500 ("Processing failed: " ++ httpExcStr 500
        ("Diarization failed: " ++ unboundLocalMsg)) := by
  decide

/-- C1 (amended): for every `/transcribe/` request in which alignment is
requested, diarization is NOT requested, and the alignment stage raises an
exception, the request does not fail: the handler returns a success
response whose `segments` field is the unaligned transcription's segment
list and whose `word_segments` field is the empty list. -/
theorem claim1_align_failure_degrades (hfToken : Option String) (req : Request)
    (env : Env) (result : TransResult)
    (hfn : falsyStr req.filename = false)
    (ha : req.align = true) (hd : req.diarize = false)
    (hs : env.saveErr = none) (ht : env.transcription = .ok result)
    (hfail : alignStageFails env result) :
    (runTranscribe hfToken req env).outcome =
      .success { text := fullTextOf result,
                 segments := result.segments.getD [],
                 language := result.language.getD "unknown",
                 word_segments := some [] } := by
  rw [runTranscribe_outcome hfToken req env hfn (by simp [hd])]
  unfold processOutcome
  rw [hs, ht]
  dsimp only
  rw [alignStage_fail req env result (respBase result) ha hfail]
  rw [diarizeStage_skip req env _ _ hd]
  rfl

/-- C1 witness: the amended theorem on a concrete request with a failing
alignment stage and no diarization. -/
theorem claim1_witness :
    (runTranscribe none { filename := some "a.wav", align := true, diarize := false }
        envAlignFail).outcome = .success respDegraded :=
  claim1_align_failure_degrades none _ envAlignFail trSample rfl rfl rfl rfl rfl
    (Or.inl ⟨"boom", rfl⟩)

/-- C3: for every request that passes the two initial validations, the
`finally` block reaches `os.remove` on every exit path; when the removal
succeeds the temp file is absent afterwards, and the removal's success or
failure never changes the outcome returned to the caller. -/
theorem claim3_temp_cleanup (hfToken : Option String) (req : Request) (env : Env)
    (hfn : falsyStr req.filename = false)
    (hcred : (req.diarize && falsyStr hfToken) = false) :
    (runTranscribe hfToken req env).removeAttempted = true
  ∧ (env.removeOk = true → (runTranscribe hfToken req env).tempFileExistsAfter = false)
  ∧ (∀ b, (runTranscribe hfToken req { env with removeOk := b }).outcome =
        (runTranscribe hfToken req env).outcome) := by
  refine ⟨?_, ?_, ?_⟩
  · simp [runTranscribe, hfn, hcred]
  · intro h; simp [runTranscribe, hfn, hcred, h]
  · intro b; simp [runTranscribe, hfn, hcred, processOutcome_removeOk]

/-- C3 witness: the cleanup guarantees on a concrete request, including that
forcing `os.remove` to fail leaves the outcome unchanged. -/
theorem claim3_witness :
    (runTranscribe none { filename := some "a.wav" } envFull).removeAttempted = true
  ∧ (runTranscribe none { filename := some "a.wav" } envFull).tempFileExistsAfter = false
  ∧ (runTranscribe none { filename := some "a.wav" } { envFull with removeOk := false }).outcome =
      (runTranscribe none { filename := some "a.wav" } envFull).outcome := by
  have h := claim3_temp_cleanup none { filename := some "a.wav" } envFull rfl rfl
  exact ⟨h.1, h.2.1 rfl, h.2.2 false⟩

/-- C4: for every request with `diarize=true` and a falsy `HF_TOKEN`, the
handler rejects with a 400 before the upload is written to disk and before
`model.transcribe` is invoked. -/
theorem claim4_credential_check (hfToken : Option String) (req : Request) (env : Env)
    (hd : req.diarize = true) (htok : falsyStr hfToken = true) :
    (runTranscribe hfToken req env).outcome.status = some 400
  ∧ (runTranscribe hfToken req env).tempCreated = false
  ∧ (runTranscribe hfToken req env).transcribeInvoked = false := by
  by_cases hfn : falsyStr req.filename = true
  · simp [runTranscribe, hfn, Outcome.status]
  · simp [runTranscribe, hfn, hd, htok, Outcome.status]

/-- C4 witness: a concrete diarization request with no configured token. -/
theorem claim4_witness :
    (runTranscribe none { filename := some "a.wav", diarize := true } envFull).outcome.status =
      some 400
  ∧ (runTranscribe none { filename := some "a.wav", diarize := true } envFull).tempCreated = false
  ∧ (runTranscribe none { filename := some "a.wav", diarize := true } envFull).transcribeInvoked =
      false :=
  claim4_credential_check none { filename := some "a.wav", diarize := true } envFull rfl rfl

/-- C5: for every request whose uploaded file has no (or an empty) filename,
the handler rejects with `400 "No file provided"` before any model is
invoked and before any temporary file is created. -/
theorem claim5_filename_check (hfToken : Option String) (req : Request) (env : Env)
    (hfn : falsyStr req.filename = true) :
    (runTranscribe hfToken req env).outcome = .httpError 400 "No file provided"
  ∧ (runTranscribe hfToken req env).tempCreated = false
  ∧ (runTranscribe hfToken req env).transcribeInvoked = false := by
  simp [runTranscribe, hfn]

/-- C5 witness: a concrete request whose upload has no filename. -/
theorem claim5_witness :
    (runTranscribe (some "hf") { filename := none } envFull).outcome =
      .httpError 400 "No file provided"
  ∧ (runTranscribe (some "hf") { filename := none } envFull).tempCreated = false
  ∧ (runTranscribe (some "hf") { filename := none } envFull).transcribeInvoked = false :=
  claim5_filename_check (some "hf") { filename := none } envFull rfl

/-- C6: for every request that reaches the diarization stage and in which
that stage raises an exception with message `msg`, the request fails with a
500 server error whose detail carries `msg` (wrapped by the stage's own
`"Diarization failed: "` `HTTPException` and the outer handler's
`"Processing failed: "`).  The hypothesis enumerates, in source order, the
three points where the stage's `try` block can raise: the pipeline
construction / `diarize_model(audio)` call (lines 185–190, whatever the
alignment stage did), the unbound `result_aligned` local at line 195 (when
alignment was requested and its stage raised), and `assign_word_speakers`
at line 193 (whose argument requires alignment, if requested, to have
succeeded — otherwise the unbound local raises instead). -/
theorem claim6_diar_failure_500 (hfToken : Option String) (req : Request)
    (env : Env) (result : TransResult) (msg : String)
    (hfn : falsyStr req.filename = false) (hd : req.diarize = true)
    (htok : falsyStr hfToken = false)
    (hs : env.saveErr = none) (ht : env.transcription = .ok result)
    (hraise :
      env.diarRunErr = some msg
      ∨ (env.diarRunErr = none ∧ req.align = true ∧ alignStageFails env result
          ∧ msg = unboundLocalMsg)
      ∨ (env.diarRunErr = none ∧ env.assign = .error msg
          ∧ (req.align = true →
              ∃ segs ra, result.segments = some segs ∧ env.alignment = .ok ra))) :
    (runTranscribe hfToken req env).outcome =
      .httpError 500 ("Processing failed: " ++ httpExcStr 500
        ("Diarization failed: " ++ msg)) := by
  rw [runTranscribe_outcome hfToken req env hfn (by simp [hd, htok])]
  unfold processOutcome
  rw [hs, ht]
  dsimp only
  rcases hraise with hr | ⟨hr, ha, hfail, hmsg⟩ | ⟨hr, he, halignok⟩
  · rw [diarizeStage_runErr req env _ _ msg hd hr]; rfl
  · subst hmsg
    rw [alignStage_fail req env result (respBase result) ha hfail]
    rw [diarizeStage_unbound req env _ hd ha hr]
    rfl
  · by_cases ha : req.align = true
    · obtain ⟨segs, ra, hseg, hal⟩ := halignok ha
      rw [alignStage_ok req env result (respBase result) segs ra ha hseg hal]
      rw [diarizeStage_assignErr req env _ _ msg hd hr (by simp) he]
      rfl
    · have ha' : req.align = false := by simpa using ha
      rw [alignStage_skip req env result (respBase result) ha']
      rw [diarizeStage_assignErr req env _ _ msg hd hr (by simp [ha']) he]
      rfl

/-- C6 witness: two concrete requests — one in which `assign_word_speakers`
raises after a successful alignment, and one in which the alignment stage
raised and the diarization pipeline itself then raises. -/
theorem claim6_witness :
    (runTranscribe (some "hf") { filename := some "a.wav", align := true, diarize := true }
        envDiarFail).outcome =
      .httpError 500 ("Processing failed: " ++ httpExcStr 500
        ("Diarization failed: " ++ "cuda out of memory"))
  ∧ (runTranscribe (some "hf") { filename := some "a.wav", align := true, diarize := true }
        envPipeFail).outcome =
      .httpError 500 ("Processing failed: " ++ httpExcStr 500
        ("Diarization failed: " ++ "pipeline down")) :=
  ⟨claim6_diar_failure_500 (some "hf") _ envDiarFail trSample "cuda out of memory"
      rfl rfl rfl rfl rfl
      (Or.inr (Or.inr ⟨rfl, rfl, fun _ => ⟨[segHello, segWorld], raSample, rfl, rfl⟩⟩)),
   claim6_diar_failure_500 (some "hf") _ envPipeFail trSample "pipeline down"
      rfl rfl rfl rfl rfl (Or.inl rfl)⟩

/-- C2: for every successful `/transcribe/` response, the `segments` field
is the output of the most-refined stage that ran and succeeded — the
diarized segments if diarization ran and succeeded, else the aligned
segments if alignment ran and succeeded, else the raw transcription
segments (assuming, as whisperx guarantees, that a succeeding stage's
result dictionary carries its `segments` key). -/
theorem claim2_segments_most_refined (hfToken : Option String) (req : Request)
    (env : Env) (result : TransResult) (resp : ResponseData)
    (ht : env.transcription = .ok result)
    (ho : (runTranscribe hfToken req env).outcome = .success resp) :
    (∀ dr, req.diarize = true → env.assign = .ok dr → dr.segments.isSome = true →
        resp.segments = dr.segments.getD [])
  ∧ (∀ ra segs, req.diarize = false → req.align = true →
        result.segments = some segs → env.alignment = .ok ra → ra.segments.isSome = true →
        resp.segments = ra.segments.getD [])
  ∧ (req.diarize = false → (req.align = false ∨ alignStageFails env result) →
        resp.segments = result.segments.getD []) := by
  have hpipe := runTranscribe_success_pipeline hfToken req env result resp ht ho
  have hinv := diarizeStage_success_inv _ _ _ _ _ hpipe
  refine ⟨?_, ?_, ?_⟩
  · intro dr hd he hsome
    rcases hinv with ⟨hd', _⟩ | ⟨_, dr', he', hresp⟩
    · rw [hd] at hd'; exact absurd hd' (by simp)
    · have hdr : dr = dr' := by
        rw [he] at he'
        injection he'
      rw [hresp, ← hdr]
      cases hds : dr.segments with
      | none => rw [hds] at hsome; simp at hsome
      | some ds => simp [hds]
  · intro ra segs hd ha hseg hal hsome
    rcases hinv with ⟨_, hresp⟩ | ⟨hd', _⟩
    · rw [alignStage_ok req env result (respBase result) segs ra ha hseg hal] at hresp
      rw [hresp]
      cases hrs : ra.segments with
      | none => rw [hrs] at hsome; simp at hsome
      | some s => simp [hrs]
    · rw [hd] at hd'; exact absurd hd' (by simp)
  · intro hd hcase
    rcases hinv with ⟨_, hresp⟩ | ⟨hd', _⟩
    · rcases hcase with ha | hfail
      · rw [alignStage_skip req env result (respBase result) ha] at hresp
        rw [hresp]; rfl
      · by_cases ha : req.align = true
        · rw [alignStage_fail req env result (respBase result) ha hfail] at hresp
          rw [hresp]; rfl
        · rw [alignStage_skip req env result (respBase result) (by simpa using ha)] at hresp
          rw [hresp]; rfl
    · rw [hd] at hd'; exact absurd hd' (by simp)

/-- C2 witness: a concrete align+diarize request in which every stage
succeeds; the response's segments are the diarized ones. -/
theorem claim2_witness :
    (runTranscribe (some "hf") { filename := some "a.wav", align := true, diarize := true }
        envFull).outcome = .success respDiarized
  ∧ respDiarized.segments = drSample.segments.getD [] := by
  constructor
  · decide
  · exact (claim2_segments_most_refined (some "hf")
      { filename := some "a.wav", align := true, diarize := true } envFull trSample
      respDiarized rfl (by decide)).1 drSample rfl rfl rfl

/-- C7: the batch endpoint maps each of the N uploaded files independently
to one entry, in upload order: `success` with that file's result when its
`/transcribe/` run returns, `error` with that file's error string when it
raises; an entry depends only on its own file, so one file's failure does
not abort or alter the others, and the batch function itself is total (the
envelope is always the 200 `{"results": ...}`). -/
theorem claim7_batch_isolation (hfToken : Option String) (align diarize : Bool)
    (language : Option String) (files : List (Option String × Env)) :
    (runTranscribeBatch hfToken align diarize language files).length = files.length
  ∧ (∀ i : Nat, (runTranscribeBatch hfToken align diarize language files)[i]? =
        (files[i]?).map (runBatchEntry hfToken align diarize language))
  ∧ (∀ f e resp,
        (runTranscribe hfToken (Request.mk f align diarize language) e).outcome =
            .success resp →
        runBatchEntry hfToken align diarize language (f, e) =
          { filename := f, status := "success", result := some resp })
  ∧ (∀ f e s d,
        (runTranscribe hfToken (Request.mk f align diarize language) e).outcome =
            .httpError s d →
        runBatchEntry hfToken align diarize language (f, e) =
          { filename := f, status := "error", error := some (httpExcStr s d) }) := by
  refine ⟨?_, ?_, ?_, ?_⟩
  · simp [runTranscribeBatch]
  · intro i; simp [runTranscribeBatch]
  · intro f e resp h; simp [runBatchEntry, h]
  · intro f e s d h; simp [runBatchEntry, h]

/-- C7 witness: a concrete two-file batch whose second file has no filename;
the first entry stays a success, the second is a per-file error. -/
theorem claim7_witness :
    (runTranscribeBatch none true false none
        [(some "a.wav", envFull), (none, envFull)]).length = 2
  ∧ runBatchEntry none true false none (some "a.wav", envFull) =
      { filename := some "a.wav", status := "success", result := some respAligned }
  ∧ runBatchEntry none true false none (none, envFull) =
      { filename := none, status := "error",
        error := some (httpExcStr 400 "No file provided") } := by
  refine ⟨(claim7_batch_isolation none true false none
      [(some "a.wav", envFull), (none, envFull)]).1, ?_, ?_⟩
  · exact (claim7_batch_isolation none true false none
      [(some "a.wav", envFull), (none, envFull)]).2.2.1 (some "a.wav") envFull
      respAligned (by decide)
  · exact (claim7_batch_isolation none true false none
      [(some "a.wav", envFull), (none, envFull)]).2.2.2 none envFull 400
      "No file provided" (by decide)

/-- C8: for every successful `/transcribe/` response, if the transcription
result supplies no (non-empty) combined `text`, the response's `text` field
is the space-joined concatenation of the stripped segment texts; otherwise
it equals the supplied combined text. -/
theorem claim8_text_assembly (hfToken : Option String) (req : Request) (env : Env)
    (result : TransResult) (resp : ResponseData)
    (ht : env.transcription = .ok result)
    (ho : (runTranscribe hfToken req env).outcome = .success resp) :
    (result.text.getD "" = "" →
       resp.text = String.intercalate " "
         ((result.segments.getD []).map (fun seg => pyStrip (seg.text.getD ""))))
  ∧ (∀ t, result.text = some t → ¬ t = "" → resp.text = t) := by
  have htext : resp.text = fullTextOf result := by
    have hpipe := runTranscribe_success_pipeline hfToken req env result resp ht ho
    have hinv := diarizeStage_success_inv _ _ _ _ _ hpipe
    have hat := alignStage_text req env result (respBase result)
    rcases hinv with ⟨_, hresp⟩ | ⟨_, dr, _, hresp⟩
    · rw [hresp]
      exact hat.1.trans rfl
    · rw [hresp]
      exact hat.1.trans rfl
  constructor
  · intro hempty
    rw [htext]
    unfold fullTextOf
    cases hseg : result.segments with
    | none => simp [hempty, hseg]; rfl
    | some segs => simp [hempty, hseg]
  · intro t hsome hne
    rw [htext]
    unfold fullTextOf
    simp [hsome, hne]

/-- C8 witness: one concrete run whose transcription result has no combined
text (fallback to joined segment texts), and one whose result carries a
combined text directly. -/
theorem claim8_witness :
    respDegraded.text = String.intercalate " "
        ((trSample.segments.getD []).map (fun seg => pyStrip (seg.text.getD "")))
  ∧ respDirect.text = "direct text" := by
  constructor
  · exact (claim8_text_assembly none (Request.mk (some "a.wav") true false none)
      envAlignFail trSample respDegraded rfl (by decide)).1 rfl
  · exact (claim8_text_assembly none (Request.mk (some "a.wav") true false none)
      envDirect trDirect respDirect rfl (by decide)).2 "direct text" rfl (by decide)

/-- C9: with `align=true`, `diarize=true` (credential configured) and an
alignment stage that raises, the diarization stage references the
never-assigned `result_aligned` local, so the request fails with a 500
server error instead of degrading gracefully to the unaligned segments;
when the diarization pipeline itself did not raise first, the 500 wraps
precisely the unbound-local error. -/
theorem claim9_unbound_alignment_local (hfToken : Option String) (req : Request)
    (env : Env) (result : TransResult)
    (hfn : falsyStr req.filename = false) (ha : req.align = true) (hd : req.diarize = true)
    (htok : falsyStr hfToken = false)
    (hs : env.saveErr = none) (ht : env.transcription = .ok result)
    (hfail : alignStageFails env result) :
    (runTranscribe hfToken req env).outcome.status = some 500
  ∧ (env.diarRunErr = none →
      (runTranscribe hfToken req env).outcome =
        .httpError 500 ("Processing failed: " ++ httpExcStr 500
          ("Diarization failed: " ++ unboundLocalMsg))) := by
  rw [runTranscribe_outcome hfToken req env hfn (by simp [hd, htok])]
  unfold processOutcome
  rw [hs, ht]
  dsimp only
  rw [alignStage_fail req env result (respBase result) ha hfail]
  constructor
  · cases hr : env.diarRunErr with
    | some msg => rw [diarizeStage_runErr req env _ _ msg hd hr]; rfl
    | none => rw [diarizeStage_unbound req env _ hd ha hr]; rfl
  · intro hr
    rw [diarizeStage_unbound req env _ hd ha hr]
    rfl

/-- C9 witness: the concrete align+diarize request of `envAlignFail`. -/
theorem claim9_witness :
    (runTranscribe (some "hf") { filename := some "a.wav", align := true, diarize := true }
        envAlignFail).outcome.status = some 500
  ∧ (runTranscribe (some "hf") { filename := some "a.wav", align := true, diarize := true }
        envAlignFail).outcome =
      .httpError 500 ("Processing failed: " ++ httpExcStr 500
        ("Diarization failed: " ++ unboundLocalMsg)) := by
  have h := claim9_unbound_alignment_local (some "hf")
    { filename := some "a.wav", align := true, diarize := true } envAlignFail trSample
    rfl rfl rfl rfl rfl rfl (Or.inl ⟨"boom", rfl⟩)
  exact ⟨h.1, h.2 rfl⟩

/-- C10: the temporary path is the literal concatenation of `"/tmp/"` with
the client-supplied filename, so two requests uploading files with the same
filename write to the same path, and a filename starting with `"../"` (e.g.
`"../etc/passwd"`) resolves to a location outside `/tmp`. -/
theorem claim10_path_traversal (hf1 hf2 : Option String) (r1 r2 : Request)
    (e1 e2 : Env)
    (hc1 : (runTranscribe hf1 r1 e1).tempCreated = true)
    (hc2 : (runTranscribe hf2 r2 e2).tempCreated = true)
    (hfn : r1.filename = r2.filename) :
    (runTranscribe hf1 r1 e1).tempPath = some (tmpPath (r1.filename.getD ""))
  ∧ (runTranscribe hf1 r1 e1).tempPath = (runTranscribe hf2 r2 e2).tempPath
  ∧ normalizeAbs (tmpPath "../etc/passwd") = "/etc/passwd"
  ∧ strStarts "/tmp/" (normalizeAbs (tmpPath "../etc/passwd")) = false := by
  have hp1 := runTranscribe_tempPath hf1 r1 e1 hc1
  have hp2 := runTranscribe_tempPath hf2 r2 e2 hc2
  refine ⟨hp1, ?_, by decide, by decide⟩
  rw [hp1, hp2, hfn]

/-- C10 witness: two concrete requests with the same filename, and the
concrete escaping filename `"../etc/passwd"`. -/
theorem claim10_witness :
    (runTranscribe none { filename := some "a.wav" } envFull).tempPath =
      some (tmpPath "a.wav")
  ∧ (runTranscribe none { filename := some "a.wav" } envFull).tempPath =
      (runTranscribe (some "hf") { filename := some "a.wav", align := false }
        envAlignFail).tempPath
  ∧ normalizeAbs (tmpPath "../etc/passwd") = "/etc/passwd"
  ∧ strStarts "/tmp/" (normalizeAbs (tmpPath "../etc/passwd")) = false := by
  have h := claim10_path_traversal none (some "hf") { filename := some "a.wav" }
    { filename := some "a.wav", align := false } envFull envAlignFail rfl rfl rfl
  exact ⟨h.1, h.2.1, h.2.2.1, h.2.2.2⟩

end WhisperXApi
